import Mathlib

/-!
Verification of the OpenAPS steady-state dosing engine
(repository file `src/openAPS-milestone1/src/OpenAPS.h`).

The repository ships only the class interface; the bodies of the member
functions are not part of the sources.  The interface is embedded faithfully
(types, constructor, default member values), and each missing body is
modelled from the specification, marked by a doc comment beginning
`Modelled from the spec:`.  C++ `float` values are modelled as exact
rationals `Rat`, `long`/`int` as `Int`.
-/

/-- `InsulinTreatment` from `OpenAPS.h` (lines 8-15): `time : long` (minutes),
`dose : float` (insulin units), `duration : int` (minutes). -/
structure InsulinTreatment where
  time : Int
  dose : Rat
  duration : Int
deriving DecidableEq, Repr

/-- The `OpenAPS` class state from `OpenAPS.h` (lines 18-44): the treatment
ledger `std::vector<InsulinTreatment> treatments` plus the four private
configuration members with their hardcoded in-class initializers
`ISF = 50.0f`, `DIA = 3.0f`, `target_BG = 110.0f`, `threshold_BG = 70.0f`. -/
structure OpenAPS where
  treatments : List InsulinTreatment
  ISF : Rat := 50
  DIA : Rat := 3
  target_BG : Rat := 110
  threshold_BG : Rat := 70
deriving DecidableEq, Repr

namespace OpenAPS

/-- The default constructor `OpenAPS()` declared at `OpenAPS.h` line 20: it
takes no configuration argument, so the instance starts with an empty ledger
and the hardcoded member initializers of lines 40-43. -/
def init : OpenAPS := { treatments := [] }

/-- Modelled from the spec: the body of `OpenAPS::addInsulinTreatment`
(declared `void addInsulinTreatment(InsulinTreatment t)` at `OpenAPS.h`
line 23; body missing from src).  Spec 4.1: appends `t` to the sequence;
rejects as a no-op if `t.dose < 0` or `t.duration <= 0`. -/
def addInsulinTreatment (s : OpenAPS) (t : InsulinTreatment) : OpenAPS :=
  if t.dose < 0 ∨ t.duration ≤ 0 then s
  else { s with treatments := s.treatments ++ [t] }

/-- Modelled from the spec: the value that the C++ call
`addInsulinTreatment(t)` hands back to its caller.  The header declares the
member `void`, and C++ `void` corresponds to `Unit`: the caller receives no
data at all. -/
def addInsulinTreatment_ret (_s : OpenAPS) (_t : InsulinTreatment) : Unit := ()

end OpenAPS

/-- Modelled from the spec: the per-treatment IOB contribution used by
`OpenAPS::insulin_calculations` (body missing from src).  Spec 4.2: with
`elapsed = t - tau.time`, a treatment contributes zero when `elapsed < 0` or
`elapsed > tau.duration`; otherwise it contributes
`tau.dose * f(elapsed / tau.duration)` for a decay fraction `f` with
`f(0) = 1`, `f(1) = 0`, monotone non-increasing; the spec leaves the exact
curve open and the linear curve `f x = 1 - x` is taken (the bilinear or
linear family the spec names), which satisfies all the required laws. -/
def contribIOB (τ : InsulinTreatment) (t : Int) : Rat :=
  if t - τ.time < 0 ∨ t - τ.time > τ.duration then 0
  else τ.dose * (1 - ((t - τ.time : Int) : Rat) / (τ.duration : Rat))

/-- Modelled from the spec: the per-treatment activity contribution used by
`OpenAPS::insulin_calculations` (body missing from src).  Spec 4.2: the
magnitude of the time-derivative of the IOB contribution inside the action
window, zero outside it; for the linear decay curve this is the constant
rate `tau.dose / tau.duration`, whose integral over the window is exactly
`tau.dose`. -/
def contribActivity (τ : InsulinTreatment) (t : Int) : Rat :=
  if t - τ.time < 0 ∨ t - τ.time > τ.duration then 0
  else τ.dose / (τ.duration : Rat)

namespace OpenAPS

/-- Modelled from the spec: the body of `OpenAPS::insulin_calculations`
(declared `std::pair<float, float> insulin_calculations(long t)` at
`OpenAPS.h` line 26; body missing from src).  Spec 4.2: the pair
`(activity, IOB)`, each the sum of the per-treatment contributions over the
ledger. -/
def insulin_calculations (s : OpenAPS) (t : Int) : Rat × Rat :=
  ((s.treatments.map (fun τ => contribActivity τ t)).sum,
   (s.treatments.map (fun τ => contribIOB τ t)).sum)

/-- Modelled from the spec: the fixed lookahead window of the naive forecast;
spec 4.3 gives 30 minutes as the intended short window. -/
def lookahead_minutes : Rat := 30

/-- Modelled from the spec: the body of `OpenAPS::get_BG_forecast` (declared
at `OpenAPS.h` lines 29-31; body missing from src).  Spec 4.3:
`naive_forecast = current_BG - activity * ISF * lookahead_minutes` and
`eventual_BG = current_BG - IOB * ISF`, with no clamping of either. -/
def get_BG_forecast (s : OpenAPS) (current_BG activity IOB : Rat) : Rat × Rat :=
  (current_BG - activity * s.ISF * lookahead_minutes,
   current_BG - IOB * s.ISF)

/-- Modelled from the spec: the baseline basal rate of spec 4.4; the header
has no baseline-rate member, so an arbitrary positive model value is fixed
(its value is immaterial to the claims, which concern the SUSPEND branch). -/
def baseline_rate : Rat := 1

/-- Modelled from the spec: the body of `OpenAPS::get_basal_rate` (declared
`float get_basal_rate(long t, float current_BG)` at `OpenAPS.h` line 34;
body missing from src).  Spec 4.4: internally invokes `insulin_calculations`
at `t` and then `get_BG_forecast`, and returns the SUSPEND rate 0 whenever
`eventual_BG <= threshold_BG` or `naive_forecast <= threshold_BG`; the
REDUCED / NORMAL / INCREASED branches are modelled with exact comparisons
against `target_BG` and the spec multipliers 0.5 and 1.5. -/
def get_basal_rate (s : OpenAPS) (t : Int) (current_BG : Rat) : Rat :=
  if (s.get_BG_forecast current_BG (s.insulin_calculations t).1
        (s.insulin_calculations t).2).2 ≤ s.threshold_BG
     ∨ (s.get_BG_forecast current_BG (s.insulin_calculations t).1
        (s.insulin_calculations t).2).1 ≤ s.threshold_BG
  then 0
  else if current_BG < s.target_BG then baseline_rate / 2
  else if current_BG = s.target_BG then baseline_rate
  else baseline_rate * 3 / 2

end OpenAPS

/-! ## Claim theorems -/

/-- C1 (confirmed): for every query time and current BG reading,
`get_basal_rate` returns 0 (the SUSPEND rate) whenever the internally computed
eventual BG or the internally computed naive forecast is at or below
`threshold_BG`, regardless of the current reading. -/
theorem get_basal_rate_suspend (s : OpenAPS) (t : Int) (current_BG : Rat)
    (h : (s.get_BG_forecast current_BG (s.insulin_calculations t).1
            (s.insulin_calculations t).2).2 ≤ s.threshold_BG
       ∨ (s.get_BG_forecast current_BG (s.insulin_calculations t).1
            (s.insulin_calculations t).2).1 ≤ s.threshold_BG) :
    s.get_basal_rate t current_BG = 0 := by
  simp only [OpenAPS.get_basal_rate, if_pos h]

/-- Witness for C1 at the spec scenario: one treatment (time 0, dose 2,
duration 60), query time 0, current BG 150; the eventual BG is
150 - 2 * 50 = 50 <= 70 and the returned rate is 0. -/
theorem get_basal_rate_suspend_witness :
    ((OpenAPS.init.addInsulinTreatment ⟨0, 2, 60⟩).get_BG_forecast 150
        ((OpenAPS.init.addInsulinTreatment ⟨0, 2, 60⟩).insulin_calculations 0).1
        ((OpenAPS.init.addInsulinTreatment ⟨0, 2, 60⟩).insulin_calculations 0).2).2
      ≤ (OpenAPS.init.addInsulinTreatment ⟨0, 2, 60⟩).threshold_BG
    ∧ (OpenAPS.init.addInsulinTreatment ⟨0, 2, 60⟩).get_basal_rate 0 150 = 0 :=
  ⟨by norm_num [OpenAPS.init, OpenAPS.addInsulinTreatment, OpenAPS.insulin_calculations,
      OpenAPS.get_BG_forecast, contribIOB, contribActivity],
   get_basal_rate_suspend _ 0 150 (Or.inl (by
      norm_num [OpenAPS.init, OpenAPS.addInsulinTreatment, OpenAPS.insulin_calculations,
        OpenAPS.get_BG_forecast, contribIOB, contribActivity]))⟩

/-- C2 (confirmed): a treatment with negative dose or non-positive duration is
rejected: `addInsulinTreatment` leaves the engine state — in particular the
ledger, its length and its contents — unchanged. -/
theorem addInsulinTreatment_rejects (s : OpenAPS) (t : InsulinTreatment)
    (h : t.dose < 0 ∨ t.duration ≤ 0) :
    s.addInsulinTreatment t = s
    ∧ (s.addInsulinTreatment t).treatments = s.treatments
    ∧ (s.addInsulinTreatment t).treatments.length = s.treatments.length := by
  have he : s.addInsulinTreatment t = s := by
    simp only [OpenAPS.addInsulinTreatment, if_pos h]
  exact ⟨he, by rw [he], by rw [he]⟩

/-- Witness for C2: dose -1 (duration 30) on the freshly constructed engine is
rejected and the ledger length stays at 0. -/
theorem addInsulinTreatment_rejects_witness :
    (InsulinTreatment.mk 0 (-1) 30).dose < 0
    ∧ OpenAPS.init.addInsulinTreatment ⟨0, -1, 30⟩ = OpenAPS.init
    ∧ (OpenAPS.init.addInsulinTreatment ⟨0, -1, 30⟩).treatments.length
        = OpenAPS.init.treatments.length :=
  ⟨by decide,
   (addInsulinTreatment_rejects OpenAPS.init ⟨0, -1, 30⟩ (Or.inl (by decide))).1,
   (addInsulinTreatment_rejects OpenAPS.init ⟨0, -1, 30⟩ (Or.inl (by decide))).2.2⟩

/-- C3 (confirmed): `get_BG_forecast` returns exactly the pair
(naive forecast, eventual BG) given by the linear formulas of spec 4.3, with
no clamping of either component. -/
theorem get_BG_forecast_formulas (s : OpenAPS) (current_BG activity IOB : Rat) :
    s.get_BG_forecast current_BG activity IOB =
      (current_BG - activity * s.ISF * OpenAPS.lookahead_minutes,
       current_BG - IOB * s.ISF) := rfl

/-- C4 (confirmed): when no treatment contributes at the query time — in
particular when the ledger is empty — `insulin_calculations` returns exactly
(0, 0); the empty ledger is handled as a normal input, not an error. -/
theorem insulin_calculations_no_contrib (s : OpenAPS) (t : Int)
    (h : ∀ τ ∈ s.treatments, t - τ.time < 0 ∨ t - τ.time > τ.duration) :
    s.insulin_calculations t = (0, 0) := by
  have hact : (s.treatments.map (fun τ => contribActivity τ t)).sum = 0 := by
    apply List.sum_eq_zero
    intro x hx
    rcases List.mem_map.mp hx with ⟨τ, hτ, rfl⟩
    unfold contribActivity
    rw [if_pos (h τ hτ)]
  have hiob : (s.treatments.map (fun τ => contribIOB τ t)).sum = 0 := by
    apply List.sum_eq_zero
    intro x hx
    rcases List.mem_map.mp hx with ⟨τ, hτ, rfl⟩
    unfold contribIOB
    rw [if_pos (h τ hτ)]
  simp [OpenAPS.insulin_calculations, hact, hiob]

/-- Witness for C4: the freshly constructed engine has an empty ledger and
`insulin_calculations 5` evaluates to (0, 0). -/
theorem insulin_calculations_no_contrib_witness :
    OpenAPS.init.treatments = []
    ∧ OpenAPS.init.insulin_calculations 5 = (0, 0) :=
  ⟨rfl, insulin_calculations_no_contrib OpenAPS.init 5 (by simp [OpenAPS.init])⟩

/-- Helper: `addInsulinTreatment`, the only state-mutating public operation,
never writes any of the private configuration members. -/
lemma addInsulinTreatment_config (s : OpenAPS) (t : InsulinTreatment) :
    (s.addInsulinTreatment t).ISF = s.ISF
    ∧ (s.addInsulinTreatment t).DIA = s.DIA
    ∧ (s.addInsulinTreatment t).target_BG = s.target_BG
    ∧ (s.addInsulinTreatment t).threshold_BG = s.threshold_BG := by
  unfold OpenAPS.addInsulinTreatment
  split <;> exact ⟨rfl, rfl, rfl, rfl⟩

/-- C8 counterexample: an accepted call (dose 1, duration 30) and a rejected
call (dose -1, duration 30) hand the caller the same empty return value even
though exactly one of the two treatments was appended; the header declares
`void addInsulinTreatment(InsulinTreatment t)`, so the result reports nothing
and the claimed success/failure indicator does not exist. -/
theorem addInsulinTreatment_ret_uninformative :
    OpenAPS.addInsulinTreatment_ret OpenAPS.init ⟨0, 1, 30⟩
      = OpenAPS.addInsulinTreatment_ret OpenAPS.init ⟨0, -1, 30⟩
    ∧ (OpenAPS.init.addInsulinTreatment ⟨0, 1, 30⟩).treatments.length
      ≠ (OpenAPS.init.addInsulinTreatment ⟨0, -1, 30⟩).treatments.length :=
  ⟨rfl, by norm_num [OpenAPS.init, OpenAPS.addInsulinTreatment]⟩

/-- C8 (corrected): `addInsulinTreatment` is declared `void` and returns no
success/failure indicator to its caller; whether the treatment was appended is
observable only through the ledger, whose length grows by one on success and
is unchanged on rejection. -/
theorem addInsulinTreatment_void_result (s : OpenAPS) (t : InsulinTreatment) :
    OpenAPS.addInsulinTreatment_ret s t = ()
    ∧ (s.addInsulinTreatment t).treatments.length
        = (if t.dose < 0 ∨ t.duration ≤ 0 then s.treatments.length
           else s.treatments.length + 1) := by
  refine ⟨rfl, ?_⟩
  by_cases hc : t.dose < 0 ∨ t.duration ≤ 0 <;>
    simp [OpenAPS.addInsulinTreatment, hc]

/-- C9 counterexample: the only constructor, `OpenAPS()` at header line 20,
accepts no configuration input and the class exposes no setter, so the
constructed instance carries exactly the hardcoded private in-class constants
of header lines 40-43 (and no baseline-rate member exists at all): the
configuration is a source-level constant, not caller-supplied. -/
theorem init_config_hardcoded :
    OpenAPS.init.ISF = 50 ∧ OpenAPS.init.DIA = 3
    ∧ OpenAPS.init.target_BG = 110 ∧ OpenAPS.init.threshold_BG = 70 :=
  ⟨rfl, rfl, rfl, rfl⟩

/-- C9 (corrected): every engine state reachable from the nullary constructor
by any sequence of `addInsulinTreatment` calls carries exactly the hardcoded
configuration ISF = 50, DIA = 3, target_BG = 110, threshold_BG = 70: no public
operation can install a caller-supplied configuration. -/
theorem reachable_config_fixed (ts : List InsulinTreatment) :
    (ts.foldl OpenAPS.addInsulinTreatment OpenAPS.init).ISF = 50
    ∧ (ts.foldl OpenAPS.addInsulinTreatment OpenAPS.init).DIA = 3
    ∧ (ts.foldl OpenAPS.addInsulinTreatment OpenAPS.init).target_BG = 110
    ∧ (ts.foldl OpenAPS.addInsulinTreatment OpenAPS.init).threshold_BG = 70 := by
  have key : ∀ (l : List InsulinTreatment) (s : OpenAPS),
      (l.foldl OpenAPS.addInsulinTreatment s).ISF = s.ISF
      ∧ (l.foldl OpenAPS.addInsulinTreatment s).DIA = s.DIA
      ∧ (l.foldl OpenAPS.addInsulinTreatment s).target_BG = s.target_BG
      ∧ (l.foldl OpenAPS.addInsulinTreatment s).threshold_BG = s.threshold_BG := by
    intro l
    induction l with
    | nil => exact fun s => ⟨rfl, rfl, rfl, rfl⟩
    | cons a l ih =>
        intro s
        rcases ih (s.addInsulinTreatment a) with ⟨h1, h2, h3, h4⟩
        rcases addInsulinTreatment_config s a with ⟨g1, g2, g3, g4⟩
        exact ⟨by rw [List.foldl_cons, h1, g1], by rw [List.foldl_cons, h2, g2],
               by rw [List.foldl_cons, h3, g3], by rw [List.foldl_cons, h4, g4]⟩
  rcases key ts OpenAPS.init with ⟨h1, h2, h3, h4⟩
  exact ⟨h1.trans rfl, h2.trans rfl, h3.trans rfl, h4.trans rfl⟩

/-- C10 (confirmed): the built-in default configuration satisfies the
configuration invariants — ISF = 50 > 0, DIA = 3 > 0, and
threshold_BG = 70 < 110 = target_BG — and the configuration members are
private and preserved by the state-mutating public operation, so the
InvalidConfiguration condition is unreachable for a default-constructed
engine. -/
theorem default_config_invariants :
    (OpenAPS.init.ISF = 50 ∧ OpenAPS.init.DIA = 3
      ∧ OpenAPS.init.threshold_BG = 70 ∧ OpenAPS.init.target_BG = 110
      ∧ 0 < OpenAPS.init.ISF ∧ 0 < OpenAPS.init.DIA
      ∧ OpenAPS.init.threshold_BG < OpenAPS.init.target_BG)
    ∧ ∀ (s : OpenAPS) (t : InsulinTreatment),
        (s.addInsulinTreatment t).ISF = s.ISF
        ∧ (s.addInsulinTreatment t).DIA = s.DIA
        ∧ (s.addInsulinTreatment t).target_BG = s.target_BG
        ∧ (s.addInsulinTreatment t).threshold_BG = s.threshold_BG :=
  ⟨⟨rfl, rfl, rfl, rfl, by norm_num [OpenAPS.init], by norm_num [OpenAPS.init],
    by norm_num [OpenAPS.init]⟩,
   addInsulinTreatment_config⟩

/-- An engine whose ledger holds exactly one treatment, with the hardcoded
default configuration of the header. -/
def singleLedger (τ : InsulinTreatment) : OpenAPS := { treatments := [τ] }

/-- Helper: on a one-treatment ledger, the reported IOB is that treatment's
contribution. -/
lemma singleLedger_iob (τ : InsulinTreatment) (t : Int) :
    ((singleLedger τ).insulin_calculations t).2 = contribIOB τ t := by
  simp [OpenAPS.insulin_calculations, singleLedger]

/-- Helper: the IOB contribution written in terms of the elapsed time `e`
relative to the treatment time. -/
lemma contribIOB_shift (τ : InsulinTreatment) (e : Int) :
    contribIOB τ (τ.time + e)
      = if e < 0 ∨ e > τ.duration then 0
        else τ.dose * (1 - ((e : Int) : Rat) / (τ.duration : Rat)) := by
  unfold contribIOB
  have he : τ.time + e - τ.time = e := by omega
  rw [he]

/-- C5 (confirmed): for a valid treatment (dose at least 0, duration positive)
alone on the ledger, the treatment contributes zero to both activity and IOB
at any query time outside its action window; its IOB contribution at the
treatment time equals its dose (decay fraction 1); and its IOB contribution at
treatment time plus duration is 0 (fully decayed). -/
theorem single_treatment_window (τ : InsulinTreatment)
    (_hdose : 0 ≤ τ.dose) (hdur : 0 < τ.duration) :
    (∀ t : Int, t - τ.time < 0 ∨ t - τ.time > τ.duration →
        (singleLedger τ).insulin_calculations t = (0, 0))
    ∧ ((singleLedger τ).insulin_calculations τ.time).2 = τ.dose
    ∧ ((singleLedger τ).insulin_calculations (τ.time + τ.duration)).2 = 0 := by
  refine ⟨?_, ?_, ?_⟩
  · intro t ht
    unfold OpenAPS.insulin_calculations singleLedger
    simp only [List.map_cons, List.map_nil, List.sum_cons, List.sum_nil, add_zero]
    unfold contribActivity contribIOB
    rw [if_pos ht, if_pos ht]
  · rw [singleLedger_iob]
    unfold contribIOB
    rw [if_neg (by omega)]
    simp
  · rw [singleLedger_iob, contribIOB_shift]
    rw [if_neg (by omega)]
    have hd : ((τ.duration : Int) : Rat) ≠ 0 := by
      exact_mod_cast (by omega : τ.duration ≠ 0)
    rw [div_self hd]
    ring

/-- Witness for C5 at the spec scenario treatment (time 0, dose 4,
duration 180): IOB is 4 at time 0 and 0 at time 180. -/
theorem single_treatment_window_witness :
    (0 : Rat) ≤ 4 ∧ (0 : Int) < 180
    ∧ ((singleLedger ⟨0, 4, 180⟩).insulin_calculations 0).2 = 4
    ∧ ((singleLedger ⟨0, 4, 180⟩).insulin_calculations 180).2 = 0 :=
  ⟨by norm_num, by norm_num,
   (single_treatment_window ⟨0, 4, 180⟩ (by norm_num) (by norm_num)).2.1,
   (single_treatment_window ⟨0, 4, 180⟩ (by norm_num) (by norm_num)).2.2⟩

/-- C6 (confirmed): for a single valid treatment alone on the ledger, the
reported IOB is monotonically non-increasing in the elapsed time: for elapsed
times 0 <= e1 <= e2, the IOB at treatment time + e1 is at least the IOB at
treatment time + e2. -/
theorem single_treatment_iob_monotone (τ : InsulinTreatment)
    (hdose : 0 ≤ τ.dose) (hdur : 0 < τ.duration)
    (e1 e2 : Int) (h0 : 0 ≤ e1) (h12 : e1 ≤ e2) :
    ((singleLedger τ).insulin_calculations (τ.time + e2)).2
      ≤ ((singleLedger τ).insulin_calculations (τ.time + e1)).2 := by
  rw [singleLedger_iob, singleLedger_iob, contribIOB_shift, contribIOB_shift]
  have hdq : (0 : Rat) < (τ.duration : Rat) := by exact_mod_cast hdur
  rcases le_or_lt e2 τ.duration with hin | hout
  · -- both elapsed times lie inside the action window
    rw [if_neg (by omega), if_neg (by omega)]
    have hq12 : ((e1 : Int) : Rat) ≤ ((e2 : Int) : Rat) := by exact_mod_cast h12
    have hdiv : ((e1 : Int) : Rat) / (τ.duration : Rat)
        ≤ ((e2 : Int) : Rat) / (τ.duration : Rat) := by
      rw [div_eq_mul_inv, div_eq_mul_inv]
      exact mul_le_mul_of_nonneg_right hq12 (le_of_lt (inv_pos.mpr hdq))
    have hsub : (1 : Rat) - ((e2 : Int) : Rat) / (τ.duration : Rat)
        ≤ 1 - ((e1 : Int) : Rat) / (τ.duration : Rat) := by linarith
    exact mul_le_mul_of_nonneg_left hsub hdose
  · -- the later elapsed time lies past the window, so its contribution is 0
    rw [if_pos (Or.inr hout)]
    by_cases h1 : e1 < 0 ∨ e1 > τ.duration
    · rw [if_pos h1]
    · rw [if_neg h1]
      have h1d : e1 ≤ τ.duration := by omega
      have hfrac : ((e1 : Int) : Rat) / (τ.duration : Rat) ≤ 1 := by
        rw [div_le_one hdq]
        exact_mod_cast h1d
      have : (0 : Rat) ≤ 1 - ((e1 : Int) : Rat) / (τ.duration : Rat) := by linarith
      exact mul_nonneg hdose this

/-- Witness for C6 at the spec scenario treatment (time 0, dose 4,
duration 180) and elapsed times 0 and 90: the IOB at time 90 is at most the
IOB at time 0. -/
theorem single_treatment_iob_monotone_witness :
    (0 : Rat) ≤ 4 ∧ (0 : Int) < 180 ∧ (0 : Int) ≤ 0 ∧ (0 : Int) ≤ 90
    ∧ ((singleLedger ⟨0, 4, 180⟩).insulin_calculations (0 + 90)).2
        ≤ ((singleLedger ⟨0, 4, 180⟩).insulin_calculations (0 + 0)).2 :=
  ⟨by norm_num, by norm_num, le_refl 0, by norm_num,
   single_treatment_iob_monotone ⟨0, 4, 180⟩ (by norm_num) (by norm_num)
     0 90 (le_refl 0) (by norm_num)⟩

/-- C7 (confirmed): linearity — for every query time and every ledger, the
(activity, IOB) pair of `insulin_calculations` equals the component-wise sum,
over the treatments of the ledger, of the pair that `insulin_calculations`
returns on the engine holding only that single treatment. -/
theorem insulin_calculations_linear (s : OpenAPS) (t : Int) :
    s.insulin_calculations t =
      ((s.treatments.map
          (fun τ => (({ s with treatments := [τ] } : OpenAPS).insulin_calculations t).1)).sum,
       (s.treatments.map
          (fun τ => (({ s with treatments := [τ] } : OpenAPS).insulin_calculations t).2)).sum) := by
  simp [OpenAPS.insulin_calculations]
